import Mathlib

/-!
# Hôtel Louvain — verification of the request handlers

A shallow embedding of `server.js` and of the Mongoose schemas under `models/`.

* A form or query field is an `Option String`: `none` is JavaScript's `undefined`.
* A JavaScript number that is not `NaN` is a value of a type `N`; `Number(s)` is
  `Env.Number s : Option N`, with `none` standing for `NaN`.  Comparisons need a
  linear order on `N` only where the source compares or sorts numbers.
* The document store is three lists (insertion order).  Every asynchronous call a handler
  awaits may reject: the environment of a request says which ones do (`Env.fails`).
* A handler maps the environment, the store, the session and the request to the `res` call it
  makes (or to an escaped rejection), the new store and the new session.
-/

namespace HotelLouvain

/-! ## JavaScript strings -/

/-- ECMAScript `WhiteSpace` and `LineTerminator` code points, the ones
`String.prototype.trim` strips. -/
def isWhiteSpace (c : Char) : Bool :=
  let n := c.toNat
  n == 0x09 || n == 0x0A || n == 0x0B || n == 0x0C || n == 0x0D || n == 0x20 || n == 0xA0 ||
  n == 0x1680 || (0x2000 ≤ n && n ≤ 0x200A) || n == 0x2028 || n == 0x2029 || n == 0x202F ||
  n == 0x205F || n == 0x3000 || n == 0xFEFF

/-- Characters of `s.trim()`: white space dropped at both ends. -/
def trimChars (cs : List Char) : List Char :=
  ((cs.dropWhile isWhiteSpace).reverse.dropWhile isWhiteSpace).reverse

/-- `s.trim()`. -/
def trim (s : String) : String := ⟨trimChars s.data⟩

/-- Scan for `s.split(sep)` with a one-character separator: `cur` holds the characters of the
piece being read, newest first. -/
def splitAux (sep : Char) : List Char → List Char → List (List Char)
  | [], cur => [cur.reverse]
  | c :: cs, cur =>
    if c = sep then cur.reverse :: splitAux sep cs [] else splitAux sep cs (c :: cur)

/-- `s.split(sep)` for a one-character separator. -/
def split (s : String) (sep : Char) : List String :=
  (splitAux sep s.data []).map String.mk

/-- JavaScript truthiness of a value that is `undefined` or a string. -/
def truthy : Option String → Bool
  | none => false
  | some s => s != ""

/-- `Boolean(s)` for a string, the predicate of `.filter(Boolean)`. -/
def Boolean (s : String) : Bool := s != ""

/-! ## Data model -/

/-- Document of `models/User.js`. -/
structure User where
  _id : String
  email : String
  username : String
  passwordHash : String
  isAdmin : Bool
  deriving DecidableEq, Repr

/-- Document of `models/Room.js`. -/
structure Room (N : Type) where
  _id : String
  name : String
  type : String
  pricePerNight : N
  capacity : N
  description : Option String
  amenities : List String
  imageUrl : Option String
  isActive : Bool
  deriving DecidableEq, Repr

/-- Modelled from the spec: the Reservation schema (`models/Reservation.js` is required by
`server.js` and not part of the sources).  Fields as the data model lists them: `userId`
and `roomId` references (required), `checkIn`, `checkOut`, `guests`, `createdAt`.  A date is kept
as the submitted string, `none` when the field is absent; `guests` is the JavaScript number
handed to the store (`none` is `NaN`). -/
structure Reservation (N : Type) where
  _id : String
  userId : String
  roomId : String
  checkIn : Option String
  checkOut : Option String
  guests : Option N
  createdAt : Nat
  deriving DecidableEq, Repr

/-- The three collections. -/
structure Store (N : Type) where
  users : List User
  rooms : List (Room N)
  reservations : List (Reservation N)
  deriving DecidableEq, Repr

/-- Snapshot kept in `req.session.user`. -/
structure SessionUser where
  _id : String
  email : String
  username : String
  isAdmin : Bool
  deriving DecidableEq, Repr

/-- `req.session.user`: `none` when the session has no user. -/
abbrev Session := Option SessionUser

/-- The asynchronous calls the handlers await. -/
inductive Op where
  | userFindOne | bcryptHash | userCreate | bcryptCompare
  | roomFind | roomFindById | roomCreate | roomSave | roomFindByIdAndDelete
  | reservationCreate | reservationFind
  deriving DecidableEq, Repr

/-- What a request gets from outside the handlers: which awaited calls reject, the id
given to a created document, the clock, bcrypt, and `Number` on strings. -/
structure Env (N : Type) where
  fails : Op → Bool
  freshId : String
  now : Nat
  bcryptHash : String → String
  bcryptCompare : String → String → Bool
  Number : String → Option N

/-- `Number(v)` for a value that is `undefined` or a string; `none` is `NaN`. -/
def Env.toNumber {N : Type} (env : Env N) : Option String → Option N
  | none => none
  | some s => env.Number s

/-! ## Views and responses -/

/-- A reservation with `roomId` (and `userId` for the admin list) populated. -/
structure Populated (N : Type) where
  reservation : Reservation N
  user : Option User
  room : Option (Room N)
  deriving DecidableEq, Repr

/-- The `filters` object handed to the `rooms` view. -/
structure Filters where
  type : String
  minPrice : String
  maxPrice : String
  deriving DecidableEq, Repr

/-- Data object passed to `res.render`. -/
inductive ViewData (N : Type) where
  | empty
  | error (error : Option String)
  | rooms (rooms : List (Room N))
  | search (rooms : List (Room N)) (filters : Filters)
  | roomDetail (room : Option (Room N)) (error : Option String)
  | reservations (reservations : List (Populated N))
  deriving DecidableEq, Repr

/-- The call a handler makes on `res`. -/
inductive Response (N : Type) where
  | render (view : String) (data : ViewData N)
  | redirect (path : String)
  | send (status : Nat) (body : String)
  deriving DecidableEq, Repr

/-- How the handling of a request ends: a response, or a rejection that left the handler. -/
inductive Outcome (N : Type) where
  | responded (r : Response N)
  | unhandledRejection
  deriving DecidableEq, Repr

/-- End state of a request. -/
structure Result (N : Type) where
  outcome : Outcome N
  store : Store N
  session : Session
  deriving DecidableEq, Repr

/-- The routes registered on `app`. -/
inductive Route where
  | getRegister | postRegister | getLogin | postLogin | getLogout
  | getHome | getRooms
  | getRoom (id : String)
  | postReserve (id : String)
  | getMyReservations
  | getAdmin | getAdminRooms | postAdminRooms
  | postAdminToggle (id : String)
  | postAdminDelete (id : String)
  | getAdminReservations
  deriving DecidableEq, Repr

/-- A request: the matched route with `req.params.id`, `req.body` and `req.query`. -/
structure Request where
  route : Route
  body : String → Option String
  query : String → Option String

/-! ## Store operations

Each returns `none` when the awaited promise rejects. -/

section Operations

variable {N : Type}

/-- Insertion step of the store's sort. -/
def insertBy {α : Type} (le : α → α → Bool) (a : α) : List α → List α
  | [] => [a]
  | b :: l => if le a b then a :: b :: l else b :: insertBy le a l

/-- The store's `.sort(...)`: the documents ordered by `le`. -/
def sortBy {α : Type} (le : α → α → Bool) : List α → List α
  | [] => []
  | a :: l => insertBy le a (sortBy le l)

/-- Replace the first element satisfying `p`. -/
def replaceFirst {α : Type} (p : α → Bool) (b : α) : List α → List α
  | [] => []
  | a :: l => if p a then b :: l else a :: replaceFirst p b l

/-- Remove the first element satisfying `p`. -/
def removeFirst {α : Type} (p : α → Bool) : List α → List α
  | [] => []
  | a :: l => if p a then l else a :: removeFirst p l

/-- `User.findOne({ email })`. -/
def User.findOne (env : Env N) (store : Store N) (email : Option String) :
    Option (Option User) :=
  if env.fails .userFindOne then none
  else some (store.users.find? fun u => some u.email == email)

/-- `bcrypt.hash(password, 10)`; rejects when the password is not a string. -/
def bcryptHash (env : Env N) (password : Option String) : Option String :=
  if env.fails .bcryptHash then none
  else match password with
    | none => none
    | some p => some (env.bcryptHash p)

/-- `bcrypt.compare(password, hash)`; rejects when the password is not a string. -/
def bcryptCompare (env : Env N) (password : Option String) (hash : String) : Option Bool :=
  if env.fails .bcryptCompare then none
  else match password with
    | none => none
    | some p => some (env.bcryptCompare p hash)

/-- `User.create({ email, username, passwordHash })` under the schema of `models/User.js`:
the three fields are required, `email` is unique, `isAdmin` defaults to false. -/
def User.create (env : Env N) (store : Store N) (email username passwordHash : Option String) :
    Option (User × Store N) :=
  if env.fails .userCreate then none
  else match email, username, passwordHash with
    | some e, some u, some h =>
      if e == "" || u == "" || h == "" then none
      else if store.users.any (fun x => x.email == e) then none
      else
        let user : User := ⟨env.freshId, e, u, h, false⟩
        some (user, { store with users := store.users ++ [user] })
    | _, _, _ => none

/-- Query object of `Room.find`: each field is a key that may be absent; a price bound is a
JavaScript number (`none` is `NaN`). -/
structure RoomFilter (N : Type) where
  isActive : Option Bool
  type : Option String
  gte : Option (Option N)
  lte : Option (Option N)

/-- A price bound that is `NaN` does not cast to the `Number` path. -/
def boundCasts : Option (Option N) → Bool
  | some none => false
  | _ => true

/-- An equality condition of a query object, absent or a value. -/
def matchesEq {α : Type} [BEq α] (cond : Option α) (v : α) : Bool :=
  match cond with
  | none => true
  | some c => v == c

/-- The `$gte` condition on a number, absent or a bound; nothing is `≥ NaN`. -/
def matchesGte [LinearOrder N] (cond : Option (Option N)) (v : N) : Bool :=
  match cond with
  | none => true
  | some none => false
  | some (some b) => decide (b ≤ v)

/-- The `$lte` condition on a number, absent or a bound; nothing is `≤ NaN`. -/
def matchesLte [LinearOrder N] (cond : Option (Option N)) (v : N) : Bool :=
  match cond with
  | none => true
  | some none => false
  | some (some b) => decide (v ≤ b)

/-- Whether a room satisfies the query object. -/
def RoomFilter.matches [LinearOrder N] (f : RoomFilter N) (r : Room N) : Bool :=
  matchesEq f.isActive r.isActive && matchesEq f.type r.type &&
    matchesGte f.gte r.pricePerNight && matchesLte f.lte r.pricePerNight

/-- `Room.find(filter)`: the matching rooms in store order. -/
def Room.find [LinearOrder N] (env : Env N) (store : Store N) (f : RoomFilter N) :
    Option (List (Room N)) :=
  if env.fails .roomFind then none
  else if !boundCasts f.gte || !boundCasts f.lte then none
  else some (store.rooms.filter f.matches)

/-- `Room.findById(id)`. -/
def Room.findById (env : Env N) (store : Store N) (id : String) : Option (Option (Room N)) :=
  if env.fails .roomFindById then none
  else some (store.rooms.find? fun r => r._id == id)

/-- Fields handed to `Room.create`. -/
structure RoomDoc (N : Type) where
  name : Option String
  type : Option String
  pricePerNight : Option N
  capacity : Option N
  description : Option String
  amenities : List String
  imageUrl : Option String

/-- `Room.create(doc)` under the schema of `models/Room.js`: `name` and `type` required,
`type` in the enum, the two numbers not `NaN`, `isActive` defaulting to true. -/
def Room.create (env : Env N) (store : Store N) (doc : RoomDoc N) : Option (Store N) :=
  if env.fails .roomCreate then none
  else match doc.name, doc.type, doc.pricePerNight, doc.capacity with
    | some name, some type, some price, some capacity =>
      if name == "" then none
      else if !(type == "single" || type == "double" || type == "suite") then none
      else
        let room : Room N :=
          ⟨env.freshId, name, type, price, capacity, doc.description, doc.amenities,
            doc.imageUrl, true⟩
        some { store with rooms := store.rooms ++ [room] }
    | _, _, _, _ => none

/-- `room.save()`: writes the document back over the stored one with its `_id`. -/
def Room.save (env : Env N) (store : Store N) (room : Room N) : Option (Store N) :=
  if env.fails .roomSave then none
  else some { store with rooms := replaceFirst (fun r => r._id == room._id) room store.rooms }

/-- `Room.findByIdAndDelete(id)`. -/
def Room.findByIdAndDelete (env : Env N) (store : Store N) (id : String) : Option (Store N) :=
  if env.fails .roomFindByIdAndDelete then none
  else some { store with rooms := removeFirst (fun r => r._id == id) store.rooms }

/-- Modelled from the spec: `Reservation.create(doc)` for the schema that is not part of the
sources; the document is stored as given, `createdAt` is the creation time.  What the absent
schema refuses is a rejection of the environment. -/
def Reservation.create (env : Env N) (store : Store N) (userId roomId : String)
    (checkIn checkOut : Option String) (guests : Option N) : Option (Store N) :=
  if env.fails .reservationCreate then none
  else
    let r : Reservation N := ⟨env.freshId, userId, roomId, checkIn, checkOut, guests, env.now⟩
    some { store with reservations := store.reservations ++ [r] }

/-- `populate('roomId')` (and `populate('userId')` when `withUser`). -/
def populate (store : Store N) (withUser : Bool) (r : Reservation N) : Populated N :=
  { reservation := r
    user := if withUser then store.users.find? (fun u => u._id == r.userId) else none
    room := store.rooms.find? (fun x => x._id == r.roomId) }

/-- `Reservation.find(filter)...sort({ createdAt: -1 })` with the populated paths; `userId`
is the filter's key when present. -/
def Reservation.find (env : Env N) (store : Store N) (userId : Option String)
    (withUser : Bool) : Option (List (Populated N)) :=
  if env.fails .reservationFind then none
  else
    let found := store.reservations.filter fun r =>
      match userId with
      | none => true
      | some u => r.userId == u
    some ((sortBy (fun a b => decide (b.createdAt ≤ a.createdAt)) found).map
      (populate store withUser))

end Operations

/-! ## Guards and handlers (`server.js`) -/

section Handlers

variable {N : Type} [LinearOrder N]

/-- A route handler, after routing. -/
abbrev Handler (N : Type) := Env N → Store N → Session → Request → Result N

/-- What a guard does: call `next`, or answer itself. -/
inductive GuardResult (N : Type) where
  | next
  | respond (r : Response N)
  deriving DecidableEq, Repr

/-- The handler answers `r`; store and session as given. -/
def answer (store : Store N) (session : Session) (r : Response N) : Result N :=
  ⟨.responded r, store, session⟩

/-- Source: `requireAuth`. -/
def requireAuth (session : Session) : GuardResult N :=
  match session with
  | none => .respond (.redirect "/login")
  | some _ => .next

/-- Source: `requireAdmin`. -/
def requireAdmin (session : Session) : GuardResult N :=
  match session with
  | none => .respond (.send 403 "Accès refusé")
  | some user =>
    if !user.isAdmin then .respond (.send 403 "Accès refusé") else .next

/-- A route registered as `app.METHOD(path, guard, handler)`. -/
def guarded (guard : Session → GuardResult N) (handler : Handler N) : Handler N :=
  fun env store session req =>
    match guard session with
    | .respond r => answer store session r
    | .next => handler env store session req

/-- Source: `app.get('/register')`. -/
def getRegister : Handler N := fun _ store session _ =>
  answer store session (.render "register" (.error none))

/-- The session snapshot of a user. -/
def snapshot (user : User) : SessionUser :=
  ⟨user._id, user.email, user.username, user.isAdmin⟩

/-- Source: `app.post('/register')`. -/
def postRegister : Handler N := fun env store session req =>
  let email := req.body "email"
  let username := req.body "username"
  let password := req.body "password"
  let confirmPassword := req.body "confirmPassword"
  if !truthy email || !truthy username || !truthy password || !truthy confirmPassword then
    answer store session (.render "register" (.error (some "Veuillez remplir tous les champs.")))
  else if password != confirmPassword then
    answer store session
      (.render "register" (.error (some "Les mots de passe ne correspondent pas.")))
  else
    let caught := answer store session (.render "register" (.error (some "Erreur serveur.")))
    match User.findOne env store email with
    | none => caught
    | some (some _) =>
      answer store session
        (.render "register" (.error (some "Un compte existe déjà avec cet email.")))
    | some none =>
      match bcryptHash env password with
      | none => caught
      | some passwordHash =>
        match User.create env store email username (some passwordHash) with
        | none => caught
        | some (user, store') => ⟨.responded (.redirect "/"), store', some (snapshot user)⟩

/-- Source: `app.get('/login')`. -/
def getLogin : Handler N := fun _ store session _ =>
  answer store session (.render "login" (.error none))

/-- Source: `app.post('/login')`. -/
def postLogin : Handler N := fun env store session req =>
  let email := req.body "email"
  let password := req.body "password"
  let caught := answer store session (.render "login" (.error (some "Erreur serveur.")))
  match User.findOne env store email with
  | none => caught
  | some none =>
    answer store session (.render "login" (.error (some "Email ou mot de passe incorrect.")))
  | some (some user) =>
    match bcryptCompare env password user.passwordHash with
    | none => caught
    | some false =>
      answer store session (.render "login" (.error (some "Email ou mot de passe incorrect.")))
    | some true => ⟨.responded (.redirect "/"), store, some (snapshot user)⟩

/-- Source: `app.get('/logout')`. -/
def getLogout : Handler N := fun _ store _ _ =>
  ⟨.responded (.redirect "/login"), store, none⟩

/-- Source: `app.get('/')`. -/
def getHome : Handler N := fun env store session _ =>
  match Room.find env store ⟨some true, none, none, none⟩ with
  | none => answer store session (.send 500 "Erreur serveur")
  | some rooms => answer store session (.render "index" (.rooms (rooms.take 6)))

/-- The query object `app.get('/rooms')` builds from `req.query`. -/
def roomsFilter (env : Env N) (type minPrice maxPrice : Option String) : RoomFilter N :=
  let filter : RoomFilter N := ⟨some true, none, none, none⟩
  let filter := if truthy type && type != some "all" then { filter with type := type } else filter
  let filter :=
    if truthy minPrice then { filter with gte := some (env.toNumber minPrice) } else filter
  let filter :=
    if truthy maxPrice then { filter with lte := some (env.toNumber maxPrice) } else filter
  filter

/-- `v || d` for a value that is `undefined` or a string. -/
def orElse (v : Option String) (d : String) : String :=
  match v with
  | none => d
  | some s => if s != "" then s else d

/-- Source: `app.get('/rooms')`. -/
def getRooms : Handler N := fun env store session req =>
  let type := req.query "type"
  let minPrice := req.query "minPrice"
  let maxPrice := req.query "maxPrice"
  let filter := roomsFilter env type minPrice maxPrice
  match Room.find env store filter with
  | none => answer store session (.send 500 "Erreur serveur")
  | some found =>
    let rooms := sortBy (fun a b => decide (a.pricePerNight ≤ b.pricePerNight)) found
    answer store session
      (.render "rooms" (.search rooms ⟨orElse type "all", orElse minPrice "", orElse maxPrice ""⟩))

/-- Source: `app.get('/rooms/:id')`. -/
def getRoom (id : String) : Handler N := fun env store session _ =>
  match Room.findById env store id with
  | none => answer store session (.send 500 "Erreur serveur")
  | some none => answer store session (.send 404 "Chambre introuvable")
  | some (some room) =>
    if !room.isActive then answer store session (.send 404 "Chambre introuvable")
    else answer store session (.render "room_detail" (.roomDetail (some room) none))

/-- Source: the handler of `app.post('/rooms/:id/reserve')`, behind `requireAuth`. -/
def postReserve (id : String) : Handler N := fun env store session req =>
  let checkIn := req.body "checkIn"
  let checkOut := req.body "checkOut"
  let guests := req.body "guests"
  if !truthy checkIn || !truthy checkOut || !truthy guests then
    match Room.findById env store id with
    | none => ⟨.unhandledRejection, store, session⟩
    | some room =>
      answer store session
        (.render "room_detail"
          (.roomDetail room (some "Veuillez remplir toutes les informations de réservation.")))
  else
    let caught := answer store session (.send 500 "Erreur serveur")
    match Room.findById env store id with
    | none => caught
    | some none => answer store session (.send 404 "Chambre introuvable")
    | some (some room) =>
      if !room.isActive then answer store session (.send 404 "Chambre introuvable")
      else
        match session with
        | none => caught
        | some user =>
          match Reservation.create env store user._id room._id checkIn checkOut
              (env.toNumber guests) with
          | none => caught
          | some store' => ⟨.responded (.redirect "/my-reservations"), store', session⟩

/-- Source: the handler of `app.get('/my-reservations')`, behind `requireAuth`. -/
def getMyReservations : Handler N := fun env store session _ =>
  let caught := answer store session (.send 500 "Erreur serveur")
  match session with
  | none => caught
  | some user =>
    match Reservation.find env store (some user._id) false with
    | none => caught
    | some reservations =>
      answer store session (.render "my_reservations" (.reservations reservations))

/-- Source: the handler of `app.get('/admin')`. -/
def getAdmin : Handler N := fun _ store session _ =>
  answer store session (.render "admin_index" .empty)

/-- Source: the handler of `app.get('/admin/rooms')`. -/
def getAdminRooms : Handler N := fun env store session _ =>
  match Room.find env store ⟨none, none, none, none⟩ with
  | none => answer store session (.send 500 "Erreur serveur")
  | some found =>
    answer store session
      (.render "admin_rooms" (.rooms (sortBy (fun a b => decide (a.name ≤ b.name)) found)))

/-- The `amenities` value `app.post('/admin/rooms')` passes to `Room.create`. -/
def parseAmenities (amenities : Option String) : List String :=
  match amenities with
  | none => []
  | some s => if s != "" then (((split s ',').map fun s => trim s).filter Boolean) else []

/-- Source: the handler of `app.post('/admin/rooms')`. -/
def postAdminRooms : Handler N := fun env store session req =>
  let name := req.body "name"
  let type := req.body "type"
  let pricePerNight := req.body "pricePerNight"
  let capacity := req.body "capacity"
  let description := req.body "description"
  let amenities := req.body "amenities"
  let imageUrl := req.body "imageUrl"
  match Room.create env store
      { name := name
        type := type
        pricePerNight := env.toNumber pricePerNight
        capacity := env.toNumber capacity
        description := description
        amenities := parseAmenities amenities
        imageUrl := imageUrl } with
  | none => answer store session (.send 500 "Erreur serveur")
  | some store' => ⟨.responded (.redirect "/admin/rooms"), store', session⟩

/-- Source: the handler of `app.post('/admin/rooms/:id/toggle')`. -/
def postAdminToggle (id : String) : Handler N := fun env store session _ =>
  let caught := answer store session (.send 500 "Erreur serveur")
  match Room.findById env store id with
  | none => caught
  | some none => answer store session (.send 404 "Chambre introuvable")
  | some (some room) =>
    let room := { room with isActive := !room.isActive }
    match Room.save env store room with
    | none => caught
    | some store' => ⟨.responded (.redirect "/admin/rooms"), store', session⟩

/-- Source: the handler of `app.post('/admin/rooms/:id/delete')`. -/
def postAdminDelete (id : String) : Handler N := fun env store session _ =>
  match Room.findByIdAndDelete env store id with
  | none => answer store session (.send 500 "Erreur serveur")
  | some store' => ⟨.responded (.redirect "/admin/rooms"), store', session⟩

/-- Source: the handler of `app.get('/admin/reservations')`. -/
def getAdminReservations : Handler N := fun env store session _ =>
  match Reservation.find env store none true with
  | none => answer store session (.send 500 "Erreur serveur")
  | some reservations =>
    answer store session (.render "admin_reservations" (.reservations reservations))

/-- The handler each route is registered with, before any guard. -/
def routeHandler : Route → Handler N
  | .getRegister => getRegister
  | .postRegister => postRegister
  | .getLogin => getLogin
  | .postLogin => postLogin
  | .getLogout => getLogout
  | .getHome => getHome
  | .getRooms => getRooms
  | .getRoom id => getRoom id
  | .postReserve id => postReserve id
  | .getMyReservations => getMyReservations
  | .getAdmin => getAdmin
  | .getAdminRooms => getAdminRooms
  | .postAdminRooms => postAdminRooms
  | .postAdminToggle id => postAdminToggle id
  | .postAdminDelete id => postAdminDelete id
  | .getAdminReservations => getAdminReservations

/-- The guard each route is registered with, if any. -/
inductive GuardKind where
  | none | auth | admin
  deriving DecidableEq, Repr

/-- Guard of each route, as in the `app.METHOD` calls. -/
def routeGuard : Route → GuardKind
  | .postReserve _ => .auth
  | .getMyReservations => .auth
  | .getAdmin => .admin
  | .getAdminRooms => .admin
  | .postAdminRooms => .admin
  | .postAdminToggle _ => .admin
  | .postAdminDelete _ => .admin
  | .getAdminReservations => .admin
  | _ => .none

/-- The application: the route's guard, then its handler. -/
def app : Handler N := fun env store session req =>
  match routeGuard req.route with
  | .none => routeHandler req.route env store session req
  | .auth => guarded requireAuth (routeHandler req.route) env store session req
  | .admin => guarded requireAdmin (routeHandler req.route) env store session req

end Handlers

/-! ## Specification-side definitions -/

section SpecSide

variable {N : Type} [LinearOrder N]

/-- The `/admin/*` routes: `GET /admin`, `GET` and `POST /admin/rooms`,
`POST /admin/rooms/:id/toggle`, `POST /admin/rooms/:id/delete`, `GET /admin/reservations`. -/
def isAdminRoute : Route → Bool
  | .getAdmin => true
  | .getAdminRooms => true
  | .postAdminRooms => true
  | .postAdminToggle _ => true
  | .postAdminDelete _ => true
  | .getAdminReservations => true
  | _ => false

/-- The type condition of the search: the query's type when a type other than 'all' is given. -/
def wantedType (type : Option String) (r : Room N) : Bool :=
  match type with
  | none => true
  | some t => t == "" || t == "all" || r.type == t

/-- The lower price bound of the search: `pricePerNight >= Number(minPrice)` when given. -/
def wantedMin (env : Env N) (minPrice : Option String) (r : Room N) : Bool :=
  match minPrice with
  | none => true
  | some s =>
    s == "" ||
    (match env.Number s with
      | some v => decide (v ≤ r.pricePerNight)
      | none => false)

/-- The upper price bound of the search: `pricePerNight <= Number(maxPrice)` when given. -/
def wantedMax (env : Env N) (maxPrice : Option String) (r : Room N) : Bool :=
  match maxPrice with
  | none => true
  | some s =>
    s == "" ||
    (match env.Number s with
      | some v => decide (r.pricePerNight ≤ v)
      | none => false)

/-- The rooms `GET /rooms` is to hand to the view, in the words of the specification: active,
of the query's type when a type other than 'all' is given, priced at least `Number(minPrice)`
when `minPrice` is given and at most `Number(maxPrice)` when `maxPrice` is given.  A parameter
is given when it is present and not the empty string. -/
def searchWanted (env : Env N) (query : String → Option String) (r : Room N) : Bool :=
  r.isActive && wantedType (query "type") r && wantedMin env (query "minPrice") r &&
    wantedMax env (query "maxPrice") r

end SpecSide

/-! ## Sample data -/

/-- Decimal digits to a number, `NaN` on any other character. -/
def sampleNumber (s : String) : Option Nat :=
  s.data.foldl
    (fun acc c =>
      match acc with
      | none => none
      | some n => if c.isDigit then some (10 * n + (c.toNat - 48)) else none)
    (some 0)

/-- An environment in which no awaited call rejects. -/
def sampleEnv : Env Nat :=
  { fails := fun _ => false
    freshId := "id-new"
    now := 1000
    bcryptHash := fun p => "hash:" ++ p
    bcryptCompare := fun p h => "hash:" ++ p == h
    Number := sampleNumber }

/-- An administrator and a client. -/
def sampleUsers : List User :=
  [⟨"u1", "admin@hotel.be", "admin", "hash:root", true⟩,
   ⟨"u2", "ann@mail.be", "ann", "hash:secret", false⟩]

/-- Four rooms, one of them inactive. -/
def sampleRooms : List (Room Nat) :=
  [⟨"r1", "Chambre 101", "double", 120, 2, none, ["WiFi"], none, true⟩,
   ⟨"r2", "Chambre 102", "single", 60, 1, none, [], none, true⟩,
   ⟨"r3", "Chambre 201", "double", 90, 2, none, ["TV"], none, true⟩,
   ⟨"r4", "Chambre 202", "double", 100, 2, none, [], none, false⟩]

/-- Three reservations of two users. -/
def sampleReservations : List (Reservation Nat) :=
  [⟨"b1", "u2", "r1", some "2025-01-10", some "2025-01-12", some 2, 10⟩,
   ⟨"b2", "u1", "r2", some "2025-02-01", some "2025-02-03", some 1, 20⟩,
   ⟨"b3", "u2", "r3", some "2025-03-05", some "2025-03-06", some 2, 30⟩]

/-- The sample store. -/
def sampleStore : Store Nat := ⟨sampleUsers, sampleRooms, sampleReservations⟩

/-- Session snapshot of the client `ann`. -/
def annSession : SessionUser := ⟨"u2", "ann@mail.be", "ann", false⟩

/-- Session snapshot of the administrator. -/
def adminSession : SessionUser := ⟨"u1", "admin@hotel.be", "admin", true⟩

/-- A request with no form field and no query parameter. -/
def bare (route : Route) : Request := ⟨route, fun _ => none, fun _ => none⟩

/-- Form fields or query parameters given as pairs. -/
def fields (l : List (String × String)) : String → Option String :=
  fun k => l.lookup k

/-- Registration with the email of `ann` and a confirmation that differs from the password. -/
def mismatchRegister : Request :=
  ⟨.postRegister,
    fields [("email", "ann@mail.be"), ("username", "ann2"), ("password", "abc"),
      ("confirmPassword", "abd")],
    fun _ => none⟩

/-- Registration with the email of `ann` and matching passwords. -/
def duplicateRegister : Request :=
  ⟨.postRegister,
    fields [("email", "ann@mail.be"), ("username", "ann2"), ("password", "abc"),
      ("confirmPassword", "abc")],
    fun _ => none⟩

/-- Login with an email no user has. -/
def unknownLogin : Request :=
  ⟨.postLogin, fields [("email", "bob@mail.be"), ("password", "secret")], fun _ => none⟩

/-- Login of `ann` with a wrong password. -/
def wrongPasswordLogin : Request :=
  ⟨.postLogin, fields [("email", "ann@mail.be"), ("password", "guess")], fun _ => none⟩

/-- The search `type=double&minPrice=50&maxPrice=150`. -/
def doubleSearch : Request :=
  ⟨.getRooms, fun _ => none, fields [("type", "double"), ("minPrice", "50"), ("maxPrice", "150")]⟩

/-- A reservation of room `r1` with every field present. -/
def fullReserve : Request :=
  ⟨.postReserve "r1",
    fields [("checkIn", "2025-05-01"), ("checkOut", "2025-05-03"), ("guests", "2")],
    fun _ => none⟩

/-- A reservation of room `r1` that leaves `checkIn` out. -/
def partialReserve : Request :=
  ⟨.postReserve "r1", fields [("checkOut", "2025-05-03"), ("guests", "2")], fun _ => none⟩

/-- An environment in which `Room.findById` rejects. -/
def findByIdDown : Env Nat :=
  { sampleEnv with fails := fun op => op == .roomFindById }

/-- The creation of a suite whose amenities field has blanks and empty pieces. -/
def createSuite : Request :=
  ⟨.postAdminRooms,
    fields [("name", "Chambre 301"), ("type", "suite"), ("pricePerNight", "200"),
      ("capacity", "4"), ("amenities", " WiFi , TV,, Petit-déjeuner ,")],
    fun _ => none⟩

/-- Login with the email of `ann` and no `password` field. -/
def registeredNoPassword : Request :=
  ⟨.postLogin, fields [("email", "ann@mail.be")], fun _ => none⟩

/-- Login with an email no user has and no `password` field. -/
def unregisteredNoPassword : Request :=
  ⟨.postLogin, fields [("email", "bob@mail.be")], fun _ => none⟩

/-! ## Lemmas on the store's sort -/

section SortLemmas

variable {α : Type}

theorem insertBy_perm (le : α → α → Bool) (a : α) (l : List α) :
    (insertBy le a l).Perm (a :: l) := by
  induction l with
  | nil => simp [insertBy]
  | cons b l ih =>
    simp only [insertBy]
    split
    · exact List.Perm.refl _
    · exact (List.Perm.cons b ih).trans (List.Perm.swap a b l)

theorem sortBy_perm (le : α → α → Bool) (l : List α) : (sortBy le l).Perm l := by
  induction l with
  | nil => simp [sortBy]
  | cons a l ih => exact (insertBy_perm le a _).trans (List.Perm.cons a ih)

theorem insertBy_pairwise (le : α → α → Bool)
    (total : ∀ a b, le a b = true ∨ le b a = true)
    (trans : ∀ a b c, le a b = true → le b c = true → le a c = true)
    (a : α) (l : List α) (h : l.Pairwise (fun x y => le x y = true)) :
    (insertBy le a l).Pairwise (fun x y => le x y = true) := by
  induction l with
  | nil => simp [insertBy]
  | cons b l ih =>
    simp only [insertBy]
    rw [List.pairwise_cons] at h
    split
    · next hab =>
      refine List.pairwise_cons.2 ⟨?_, List.pairwise_cons.2 h⟩
      intro x hx
      rcases List.mem_cons.1 hx with rfl | hx
      · exact hab
      · exact trans _ _ _ hab (h.1 x hx)
    · next hab =>
      refine List.pairwise_cons.2 ⟨?_, ih h.2⟩
      intro x hx
      rcases List.mem_cons.1 ((insertBy_perm le a l).mem_iff.1 hx) with rfl | hx
      · rcases total x b with h1 | h1
        · exact absurd h1 hab
        · exact h1
      · exact h.1 x hx

theorem sortBy_pairwise (le : α → α → Bool)
    (total : ∀ a b, le a b = true ∨ le b a = true)
    (trans : ∀ a b c, le a b = true → le b c = true → le a c = true)
    (l : List α) : (sortBy le l).Pairwise (fun x y => le x y = true) := by
  induction l with
  | nil => simp [sortBy]
  | cons a l ih => exact insertBy_pairwise le total trans a _ ih

end SortLemmas

/-! ## Guards -/

section GuardTheorems

variable {N : Type} [LinearOrder N]

/-- C1: on every `/admin/*` route, a session without a user or with `isAdmin` false gets
status 403 with body 'Accès refusé' from `requireAdmin`, whatever the route handler is (it is
not called), and store and session are unchanged; a session whose user has `isAdmin` true
makes `requireAdmin` call `next` without a response of its own, so the request is the
handler's. -/
theorem requireAdmin_guards_admin_routes (env : Env N) (store : Store N) (session : Session)
    (req : Request) (hroute : isAdminRoute req.route = true) :
    ((session = none ∨ ∃ u, session = some u ∧ u.isAdmin = false) →
      requireAdmin (N := N) session = .respond (.send 403 "Accès refusé") ∧
      (∀ handler : Handler N, guarded requireAdmin handler env store session req =
        ⟨.responded (.send 403 "Accès refusé"), store, session⟩) ∧
      app env store session req = ⟨.responded (.send 403 "Accès refusé"), store, session⟩) ∧
    ((∃ u, session = some u ∧ u.isAdmin = true) →
      requireAdmin (N := N) session = .next ∧
      (∀ handler : Handler N, guarded requireAdmin handler env store session req =
        handler env store session req) ∧
      app env store session req = routeHandler req.route env store session req) := by
  have hguard : routeGuard req.route = .admin := by
    cases hr : req.route <;> simp [hr, isAdminRoute] at hroute <;> rfl
  constructor
  · intro h
    have hdeny : requireAdmin (N := N) session = .respond (.send 403 "Accès refusé") := by
      rcases h with rfl | ⟨u, rfl, hu⟩
      · rfl
      · simp [requireAdmin, hu]
    refine ⟨hdeny, ?_, ?_⟩
    · intro handler
      simp [guarded, hdeny, answer]
    · simp [app, hguard, guarded, hdeny, answer]
  · rintro ⟨u, rfl, hu⟩
    have hnext : requireAdmin (N := N) (some u) = .next := by
      simp [requireAdmin, hu]
    refine ⟨hnext, ?_, ?_⟩
    · intro handler
      simp [guarded, hnext]
    · simp [app, hguard, guarded, hnext]

/-- Witness for C1: the client `ann` posting a toggle of room `r1` is refused and the store
is as before. -/
theorem requireAdmin_guards_admin_routes_witness :
    app sampleEnv sampleStore (some annSession) (bare (.postAdminToggle "r1")) =
      ⟨.responded (.send 403 "Accès refusé"), sampleStore, some annSession⟩ :=
  ((requireAdmin_guards_admin_routes sampleEnv sampleStore (some annSession)
    (bare (.postAdminToggle "r1")) rfl).1 (Or.inr ⟨annSession, rfl, rfl⟩)).2.2

/-- C6: without a session user `requireAuth` redirects to `/login` whatever the handler is (it
is not called); with a session user it calls `next`; so `POST /rooms/:id/reserve` without a
session redirects to `/login` and leaves the store, hence the reservations, as they were,
whatever the body and the room id. -/
theorem requireAuth_guards (env : Env N) (store : Store N) (req : Request) :
    requireAuth (N := N) none = .respond (.redirect "/login") ∧
    (∀ handler : Handler N, guarded requireAuth handler env store none req =
      ⟨.responded (.redirect "/login"), store, none⟩) ∧
    (∀ (u : SessionUser) (handler : Handler N),
      requireAuth (N := N) (some u) = .next ∧
      guarded requireAuth handler env store (some u) req = handler env store (some u) req) ∧
    (∀ (id : String) (body query : String → Option String),
      app env store none ⟨.postReserve id, body, query⟩ =
        ⟨.responded (.redirect "/login"), store, none⟩) := by
  refine ⟨rfl, ?_, ?_, ?_⟩
  · intro handler
    rfl
  · intro u handler
    exact ⟨rfl, rfl⟩
  · intro id body query
    rfl

end GuardTheorems

/-! ## Registration and login -/

section AuthTheorems

variable {N : Type} [LinearOrder N]

theorem find?_email_isSome (users : List User) (u : User) (hu : u ∈ users) :
    ∃ v, users.find? (fun x => some x.email == some u.email) = some v := by
  cases h : users.find? (fun x => some x.email == some u.email) with
  | some v => exact ⟨v, rfl⟩
  | none =>
    have := (List.find?_eq_none.1 h) u hu
    simp at this

/-- Counterexample for C2: a registration with the email of an existing user and a
confirmation that differs from the password is answered with the password-mismatch
message, not with the duplicate-account message. -/
theorem register_existing_email_counterexample :
    ¬ ∀ (env : Env Nat) (store : Store Nat) (session : Session) (req : Request),
      req.route = .postRegister →
      (∃ u ∈ store.users, req.body "email" = some u.email) →
      (app env store session req).outcome =
          .responded (.render "register"
            (.error (some "Un compte existe déjà avec cet email."))) ∧
        (app env store session req).store.users = store.users := by
  intro h
  have h1 := h sampleEnv sampleStore none mismatchRegister rfl
    ⟨⟨"u2", "ann@mail.be", "ann", "hash:secret", false⟩, by decide, by decide⟩
  revert h1
  decide

/-- C2 (amended): a `POST /register` whose email is the email of an existing User never
creates a User record (store and session are left as they were); when moreover the four
fields are non-empty, the password equals its confirmation and the User lookup does not
reject, the response is the register form with 'Un compte existe déjà avec cet email.'. -/
theorem register_existing_email (env : Env N) (store : Store N) (session : Session)
    (body query : String → Option String) (u : User) (hu : u ∈ store.users)
    (hemail : body "email" = some u.email) :
    (app env store session ⟨.postRegister, body, query⟩).store = store ∧
    (app env store session ⟨.postRegister, body, query⟩).session = session ∧
    (truthy (body "email") = true → truthy (body "username") = true →
      truthy (body "password") = true → truthy (body "confirmPassword") = true →
      body "password" = body "confirmPassword" → env.fails .userFindOne = false →
      (app env store session ⟨.postRegister, body, query⟩).outcome =
        .responded (.render "register"
          (.error (some "Un compte existe déjà avec cet email.")))) := by
  obtain ⟨v, hv⟩ := find?_email_isSome store.users u hu
  have happ : app env store session ⟨.postRegister, body, query⟩ =
      postRegister env store session ⟨.postRegister, body, query⟩ := rfl
  rw [happ]
  refine ⟨?_, ?_, ?_⟩
  · simp only [postRegister, hemail, User.findOne, hv]
    split
    · rfl
    · split
      · rfl
      · cases env.fails .userFindOne <;> rfl
  · simp only [postRegister, hemail, User.findOne, hv]
    split
    · rfl
    · split
      · rfl
      · cases env.fails .userFindOne <;> rfl
  · intro h1 h2 h3 h4 h5 h6
    rw [hemail] at h1
    have hv' : store.users.find? (fun x => x.email == u.email) = some v := by simpa using hv
    simp [postRegister, hemail, User.findOne, hv', h1, h2, h3, h4, h5, h6, answer]

/-- Witness for C2: registering again with the email of `ann` and matching passwords. -/
theorem register_existing_email_witness :
    (app sampleEnv sampleStore none duplicateRegister).store = sampleStore ∧
    (app sampleEnv sampleStore none duplicateRegister).session = none ∧
    (app sampleEnv sampleStore none duplicateRegister).outcome =
      .responded (.render "register"
        (.error (some "Un compte existe déjà avec cet email."))) :=
  have h := register_existing_email sampleEnv sampleStore none duplicateRegister.body
    duplicateRegister.query ⟨"u2", "ann@mail.be", "ann", "hash:secret", false⟩
    (by decide) (by decide)
  ⟨h.1, h.2.1, h.2.2 (by decide) (by decide) (by decide) (by decide) (by decide) rfl⟩

/-- When a password is submitted, a `POST /login` that fails because no User has the email and
one that fails because the User exists and the password does not verify against its
`passwordHash` get the same response, the login view with the single message
'Email ou mot de passe incorrect.'; each leaves its session and the store as they were. -/
theorem login_failures_indistinguishable (env₁ env₂ : Env N) (store₁ store₂ : Store N)
    (session₁ session₂ : Session) (body₁ body₂ query₁ query₂ : String → Option String)
    (user : User) (password : String)
    (hfind₁ : env₁.fails .userFindOne = false)
    (hunknown : ∀ u ∈ store₁.users, some u.email ≠ body₁ "email")
    (hfind₂ : env₂.fails .userFindOne = false)
    (hknown : store₂.users.find? (fun u => some u.email == body₂ "email") = some user)
    (hcompare : env₂.fails .bcryptCompare = false)
    (hpassword : body₂ "password" = some password)
    (hwrong : env₂.bcryptCompare password user.passwordHash = false) :
    app env₁ store₁ session₁ ⟨.postLogin, body₁, query₁⟩ =
      ⟨.responded (.render "login" (.error (some "Email ou mot de passe incorrect."))),
        store₁, session₁⟩ ∧
    app env₂ store₂ session₂ ⟨.postLogin, body₂, query₂⟩ =
      ⟨.responded (.render "login" (.error (some "Email ou mot de passe incorrect."))),
        store₂, session₂⟩ ∧
    (app env₁ store₁ session₁ ⟨.postLogin, body₁, query₁⟩).outcome =
      (app env₂ store₂ session₂ ⟨.postLogin, body₂, query₂⟩).outcome ∧
    (session₁ = none → (app env₁ store₁ session₁ ⟨.postLogin, body₁, query₁⟩).session = none) ∧
    (session₂ = none →
      (app env₂ store₂ session₂ ⟨.postLogin, body₂, query₂⟩).session = none) := by
  have hnone : store₁.users.find? (fun u => some u.email == body₁ "email") = none := by
    apply List.find?_eq_none.2
    intro u hu
    simpa using hunknown u hu
  have r1 : app env₁ store₁ session₁ ⟨.postLogin, body₁, query₁⟩ =
      ⟨.responded (.render "login" (.error (some "Email ou mot de passe incorrect."))),
        store₁, session₁⟩ := by
    show postLogin env₁ store₁ session₁ ⟨.postLogin, body₁, query₁⟩ = _
    simp [postLogin, User.findOne, hfind₁, hnone, answer]
  have r2 : app env₂ store₂ session₂ ⟨.postLogin, body₂, query₂⟩ =
      ⟨.responded (.render "login" (.error (some "Email ou mot de passe incorrect."))),
        store₂, session₂⟩ := by
    show postLogin env₂ store₂ session₂ ⟨.postLogin, body₂, query₂⟩ = _
    simp [postLogin, User.findOne, hfind₂, hknown, bcryptCompare, hcompare, hpassword, hwrong,
      answer]
  refine ⟨r1, r2, ?_, ?_, ?_⟩
  · rw [r1, r2]
  · intro hs
    rw [r1]
    exact hs
  · intro hs
    rw [r2]
    exact hs

/-- An unknown email and a wrong password for `ann`, each sent without a session user, are
answered alike. -/
theorem login_failures_indistinguishable_witness :
    (app sampleEnv sampleStore none unknownLogin).outcome =
      (app sampleEnv sampleStore none wrongPasswordLogin).outcome :=
  (login_failures_indistinguishable sampleEnv sampleEnv sampleStore sampleStore none none
    unknownLogin.body wrongPasswordLogin.body (fun _ => none) (fun _ => none)
    ⟨"u2", "ann@mail.be", "ann", "hash:secret", false⟩ "guess"
    rfl (by decide) rfl (by decide) rfl (by decide) (by decide)).2.2.1

/-- C3, at the failing input: a `POST /login` without a `password` field is answered with
'Erreur serveur.' when the email is the email of a User, because `bcrypt.compare` is called
with `undefined` and its rejection is caught, and with 'Email ou mot de passe incorrect.' when
no User has the email; the two responses differ, so the response tells whether the email is
registered.  Neither request puts a user in the session. -/
theorem login_missing_password_reveals_email :
    (app sampleEnv sampleStore none registeredNoPassword).outcome =
      .responded (.render "login" (.error (some "Erreur serveur."))) ∧
    (app sampleEnv sampleStore none unregisteredNoPassword).outcome =
      .responded (.render "login" (.error (some "Email ou mot de passe incorrect."))) ∧
    (app sampleEnv sampleStore none registeredNoPassword).outcome ≠
      (app sampleEnv sampleStore none unregisteredNoPassword).outcome ∧
    (app sampleEnv sampleStore none registeredNoPassword).session = none ∧
    (app sampleEnv sampleStore none unregisteredNoPassword).session = none := by
  decide

end AuthTheorems

/-! ## Room search -/

section SearchFilter

variable {N : Type}

theorem roomsFilter_eq (env : Env N) (type minPrice maxPrice : Option String) :
    roomsFilter env type minPrice maxPrice =
      ⟨some true, if (truthy type && type != some "all") = true then type else none,
        if truthy minPrice = true then some (env.toNumber minPrice) else none,
        if truthy maxPrice = true then some (env.toNumber maxPrice) else none⟩ := by
  simp only [roomsFilter]
  split_ifs <;> rfl

theorem matchesEq_type (type : Option String) (r : Room N) :
    matchesEq (if (truthy type && type != some "all") = true then type else none) r.type =
      wantedType type r := by
  rcases type with _ | t
  · simp [truthy, matchesEq, wantedType]
  · by_cases h0 : t = "" <;> by_cases h1 : t = "all" <;>
      simp [truthy, matchesEq, wantedType, h0, h1]

end SearchFilter

section SearchTheorems

variable {N : Type} [LinearOrder N]

theorem matchesGte_min (env : Env N) (minPrice : Option String)
    (hmin : ∀ s, minPrice = some s → s ≠ "" → ∃ v, env.Number s = some v) :
    boundCasts (if truthy minPrice = true then some (env.toNumber minPrice) else none) = true ∧
    ∀ r : Room N,
      matchesGte (if truthy minPrice = true then some (env.toNumber minPrice) else none)
        r.pricePerNight = wantedMin env minPrice r := by
  rcases minPrice with _ | s
  · simp [truthy, matchesGte, wantedMin, boundCasts]
  · by_cases h0 : s = ""
    · simp [truthy, matchesGte, wantedMin, boundCasts, h0]
    · obtain ⟨v, hv⟩ := hmin s rfl h0
      simp [truthy, matchesGte, wantedMin, boundCasts, h0, hv, Env.toNumber]

theorem matchesLte_max (env : Env N) (maxPrice : Option String)
    (hmax : ∀ s, maxPrice = some s → s ≠ "" → ∃ v, env.Number s = some v) :
    boundCasts (if truthy maxPrice = true then some (env.toNumber maxPrice) else none) = true ∧
    ∀ r : Room N,
      matchesLte (if truthy maxPrice = true then some (env.toNumber maxPrice) else none)
        r.pricePerNight = wantedMax env maxPrice r := by
  rcases maxPrice with _ | s
  · simp [truthy, matchesLte, wantedMax, boundCasts]
  · by_cases h0 : s = ""
    · simp [truthy, matchesLte, wantedMax, boundCasts, h0]
    · obtain ⟨v, hv⟩ := hmax s rfl h0
      simp [truthy, matchesLte, wantedMax, boundCasts, h0, hv, Env.toNumber]

theorem roomsFilter_spec (env : Env N) (query : String → Option String)
    (hmin : ∀ s, query "minPrice" = some s → s ≠ "" → ∃ v, env.Number s = some v)
    (hmax : ∀ s, query "maxPrice" = some s → s ≠ "" → ∃ v, env.Number s = some v) :
    boundCasts (roomsFilter env (query "type") (query "minPrice") (query "maxPrice")).gte = true ∧
    boundCasts (roomsFilter env (query "type") (query "minPrice") (query "maxPrice")).lte = true ∧
    (roomsFilter env (query "type") (query "minPrice") (query "maxPrice")).matches =
      searchWanted env query := by
  rw [roomsFilter_eq]
  refine ⟨?_, ?_, ?_⟩
  · exact (matchesGte_min env _ hmin).1
  · exact (matchesLte_max env _ hmax).1
  · funext r
    simp only [RoomFilter.matches, searchWanted]
    rw [matchesEq_type, (matchesGte_min env _ hmin).2 r, (matchesLte_max env _ hmax).2 r]
    simp [matchesEq]

/-- C4: when the query's prices are numeric strings (and the store answers), `GET /rooms`
hands the `rooms` view exactly the rooms that are active, of the query's type when a type other
than 'all' is given, with `pricePerNight >= Number(minPrice)` and
`pricePerNight <= Number(maxPrice)` for the bounds that are given (both kept when both are
given), in ascending order of `pricePerNight`; for `type=double&minPrice=50&maxPrice=150` these
are active double rooms priced between 50 and 150 inclusive. -/
theorem rooms_search (env : Env N) (store : Store N) (session : Session)
    (body query : String → Option String)
    (hfind : env.fails .roomFind = false)
    (hmin : ∀ s, query "minPrice" = some s → s ≠ "" → ∃ v, env.Number s = some v)
    (hmax : ∀ s, query "maxPrice" = some s → s ≠ "" → ∃ v, env.Number s = some v) :
    ∃ rooms : List (Room N),
      app env store session ⟨.getRooms, body, query⟩ =
        ⟨.responded (.render "rooms" (.search rooms
          ⟨orElse (query "type") "all", orElse (query "minPrice") "",
            orElse (query "maxPrice") ""⟩)), store, session⟩ ∧
      rooms.Perm (store.rooms.filter (searchWanted env query)) ∧
      rooms.Sorted (fun a b => a.pricePerNight ≤ b.pricePerNight) ∧
      (∀ r, r ∈ rooms ↔ r ∈ store.rooms ∧ searchWanted env query r = true) ∧
      (∀ a b : N, query "type" = some "double" → query "minPrice" = some "50" →
        query "maxPrice" = some "150" → env.Number "50" = some a → env.Number "150" = some b →
        ∀ r ∈ rooms, r.isActive = true ∧ r.type = "double" ∧
          a ≤ r.pricePerNight ∧ r.pricePerNight ≤ b) := by
  obtain ⟨hg, hl, hm⟩ := roomsFilter_spec env query hmin hmax
  have hperm := sortBy_perm (fun a b : Room N => decide (a.pricePerNight ≤ b.pricePerNight))
    (store.rooms.filter (searchWanted env query))
  have hmem : ∀ r, r ∈ sortBy (fun a b : Room N => decide (a.pricePerNight ≤ b.pricePerNight))
      (store.rooms.filter (searchWanted env query)) ↔
      r ∈ store.rooms ∧ searchWanted env query r = true := by
    intro r
    rw [hperm.mem_iff, List.mem_filter]
  refine ⟨sortBy (fun a b => decide (a.pricePerNight ≤ b.pricePerNight))
    (store.rooms.filter (searchWanted env query)), ?_, hperm, ?_, hmem, ?_⟩
  · show getRooms env store session ⟨.getRooms, body, query⟩ = _
    simp [getRooms, Room.find, hfind, hg, hl, hm, answer]
  · have hs := sortBy_pairwise (fun a b : Room N => decide (a.pricePerNight ≤ b.pricePerNight))
      (fun a b => by
        rcases le_total a.pricePerNight b.pricePerNight with h | h
        · exact Or.inl (decide_eq_true h)
        · exact Or.inr (decide_eq_true h))
      (fun a b c hab hbc =>
        decide_eq_true (le_trans (of_decide_eq_true hab) (of_decide_eq_true hbc)))
      (store.rooms.filter (searchWanted env query))
    exact hs.imp (fun h => of_decide_eq_true h)
  · intro a b ht hlo hhi ha hb r hr
    have hw := ((hmem r).1 hr).2
    simpa [searchWanted, wantedType, wantedMin, wantedMax, ht, hlo, hhi, ha, hb, and_assoc]
      using hw

/-- Witness for C4: `type=double&minPrice=50&maxPrice=150` on the sample store. -/
theorem rooms_search_witness :
    ∃ rooms : List (Room Nat),
      app sampleEnv sampleStore none doubleSearch =
        ⟨.responded (.render "rooms" (.search rooms ⟨"double", "50", "150"⟩)),
          sampleStore, none⟩ ∧
      rooms.map (fun r => r._id) = ["r3", "r1"] ∧
      ∀ r ∈ rooms, r.isActive = true ∧ r.type = "double" ∧
        50 ≤ r.pricePerNight ∧ r.pricePerNight ≤ 150 := by
  have hnum : ∀ s, s = "50" ∨ s = "150" → ∃ v, sampleEnv.Number s = some v := by
    rintro s (rfl | rfl)
    · exact ⟨50, by decide⟩
    · exact ⟨150, by decide⟩
  obtain ⟨rooms, happ, hperm, hsorted, hmem, hdouble⟩ :=
    rooms_search sampleEnv sampleStore none doubleSearch.body doubleSearch.query rfl
      (fun s hs _ => hnum s (Or.inl
        (Option.some.inj ((show doubleSearch.query "minPrice" = some "50" by decide).symm.trans
          hs)).symm))
      (fun s hs _ => hnum s (Or.inr
        (Option.some.inj ((show doubleSearch.query "maxPrice" = some "150" by decide).symm.trans
          hs)).symm))
  have heval : app sampleEnv sampleStore none doubleSearch =
      ⟨.responded (.render "rooms" (.search
        [⟨"r3", "Chambre 201", "double", 90, 2, none, ["TV"], none, true⟩,
         ⟨"r1", "Chambre 101", "double", 120, 2, none, ["WiFi"], none, true⟩]
        ⟨"double", "50", "150"⟩)), sampleStore, none⟩ := by decide
  have hrooms : rooms = [⟨"r3", "Chambre 201", "double", 90, 2, none, ["TV"], none, true⟩,
      ⟨"r1", "Chambre 101", "double", 120, 2, none, ["WiFi"], none, true⟩] := by
    have h := happ.symm.trans heval
    simp at h
    exact h.1
  refine ⟨rooms, ?_, ?_, hdouble 50 150 (by decide) (by decide) (by decide) (by decide)
    (by decide)⟩
  · rw [hrooms]
    exact heval
  · rw [hrooms]
    rfl

end SearchTheorems

/-! ## Reservations -/

section ReservationTheorems

variable {N : Type} [LinearOrder N]

/-- C5: a `POST /rooms/:id/reserve` with a session user, non-empty `checkIn`, `checkOut` and
`guests`, and an `:id` that resolves to an active Room, none of the two store calls rejecting,
adds exactly one Reservation at the end of the collection, with the session user's id, the
room's id (which is `:id`), the submitted `checkIn` and `checkOut` and `Number(guests)`,
leaves every other record and the session as they were, and redirects to
`/my-reservations`. -/
theorem reserve_creates_one (env : Env N) (store : Store N) (user : SessionUser) (id : String)
    (body query : String → Option String) (room : Room N) (checkIn checkOut guests : String)
    (hcheckIn : body "checkIn" = some checkIn) (hcheckIn' : checkIn ≠ "")
    (hcheckOut : body "checkOut" = some checkOut) (hcheckOut' : checkOut ≠ "")
    (hguests : body "guests" = some guests) (hguests' : guests ≠ "")
    (hroom : store.rooms.find? (fun r => r._id == id) = some room)
    (hactive : room.isActive = true)
    (hfind : env.fails .roomFindById = false)
    (hcreate : env.fails .reservationCreate = false) :
    app env store (some user) ⟨.postReserve id, body, query⟩ =
      ⟨.responded (.redirect "/my-reservations"),
        { users := store.users
          rooms := store.rooms
          reservations := store.reservations ++
            [⟨env.freshId, user._id, room._id, some checkIn, some checkOut, env.Number guests,
              env.now⟩] },
        some user⟩ ∧
    room._id = id := by
  have hid : room._id = id := by
    have := List.find?_some hroom
    simpa using this
  refine ⟨?_, hid⟩
  show guarded requireAuth (postReserve id) env store (some user) ⟨.postReserve id, body, query⟩ = _
  simp [guarded, requireAuth, postReserve, hcheckIn, hcheckOut, hguests, truthy, hcheckIn',
    hcheckOut', hguests', Room.findById, hfind, hroom, hactive, Reservation.create, hcreate,
    Env.toNumber]

/-- Witness for C5: `ann` reserves room `r1` for two guests. -/
theorem reserve_creates_one_witness :
    app sampleEnv sampleStore (some annSession) fullReserve =
      ⟨.responded (.redirect "/my-reservations"),
        { users := sampleUsers
          rooms := sampleRooms
          reservations := sampleReservations ++
            [⟨"id-new", "u2", "r1", some "2025-05-01", some "2025-05-03", some 2, 1000⟩] },
        some annSession⟩ :=
  (reserve_creates_one sampleEnv sampleStore annSession "r1" fullReserve.body fullReserve.query
    ⟨"r1", "Chambre 101", "double", 120, 2, none, ["WiFi"], none, true⟩
    "2025-05-01" "2025-05-03" "2"
    (by decide) (by decide) (by decide) (by decide) (by decide) (by decide) (by decide) rfl rfl
    rfl).1

/-- C7, at the failing input: when `checkIn` is missing, `POST /rooms/:id/reserve` awaits
`Room.findById` outside its `try` block, so a rejection of that call leaves the handler and no
response is sent; the same rejection with every field present is caught and answered with
status 500 'Erreur serveur'. -/
theorem reserve_missing_field_rejection_escapes :
    (app findByIdDown sampleStore (some annSession) partialReserve).outcome =
      .unhandledRejection ∧
    (app findByIdDown sampleStore (some annSession) fullReserve).outcome =
      .responded (.send 500 "Erreur serveur") := by
  decide

/-- C10: for a session user U (the store answering), `GET /my-reservations` hands the view
exactly the Reservations whose `userId` is U's id, each once, none of another user, ordered by
`createdAt` descending (newest first), each with its room populated. -/
theorem my_reservations_own_newest_first (env : Env N) (store : Store N) (user : SessionUser)
    (body query : String → Option String)
    (hfind : env.fails .reservationFind = false) :
    ∃ l : List (Populated N),
      app env store (some user) ⟨.getMyReservations, body, query⟩ =
        ⟨.responded (.render "my_reservations" (.reservations l)), store, some user⟩ ∧
      (l.map fun p => p.reservation).Perm
        (store.reservations.filter fun r => r.userId == user._id) ∧
      (l.map fun p => p.reservation).Sorted (fun a b => b.createdAt ≤ a.createdAt) ∧
      (∀ r, r ∈ (l.map fun p => p.reservation) ↔
        r ∈ store.reservations ∧ r.userId = user._id) ∧
      ∀ p ∈ l, p.room = store.rooms.find? (fun x => x._id == p.reservation.roomId) := by
  have hmap : ∀ l : List (Reservation N),
      ((l.map (populate store false)).map fun p => p.reservation) = l := by
    intro l
    rw [List.map_map]
    exact List.map_id _
  have hperm := sortBy_perm (fun a b : Reservation N => decide (b.createdAt ≤ a.createdAt))
    (store.reservations.filter fun r => r.userId == user._id)
  refine ⟨(sortBy (fun a b : Reservation N => decide (b.createdAt ≤ a.createdAt))
    (store.reservations.filter fun r => r.userId == user._id)).map (populate store false),
    ?_, ?_, ?_, ?_, ?_⟩
  · show guarded requireAuth getMyReservations env store (some user)
      ⟨.getMyReservations, body, query⟩ = _
    simp [guarded, requireAuth, getMyReservations, Reservation.find, hfind, answer]
  · rw [hmap]
    exact hperm
  · rw [hmap]
    have hs := sortBy_pairwise (fun a b : Reservation N => decide (b.createdAt ≤ a.createdAt))
      (fun a b => by
        rcases le_total b.createdAt a.createdAt with h | h
        · exact Or.inl (decide_eq_true h)
        · exact Or.inr (decide_eq_true h))
      (fun a b c hab hbc =>
        decide_eq_true (le_trans (of_decide_eq_true hbc) (of_decide_eq_true hab)))
      (store.reservations.filter fun r => r.userId == user._id)
    exact hs.imp (fun h => of_decide_eq_true h)
  · intro r
    rw [hmap, hperm.mem_iff, List.mem_filter]
    simp
  · intro p hp
    obtain ⟨r, _, rfl⟩ := List.mem_map.1 hp
    rfl

/-- Witness for C10: the history of `ann` in the sample store, newest first. -/
theorem my_reservations_own_newest_first_witness :
    ∃ l : List (Populated Nat),
      app sampleEnv sampleStore (some annSession) (bare .getMyReservations) =
        ⟨.responded (.render "my_reservations" (.reservations l)), sampleStore,
          some annSession⟩ ∧
      (l.map fun p => p.reservation._id) = ["b3", "b1"] ∧
      (l.map fun p => p.reservation).Sorted (fun a b => b.createdAt ≤ a.createdAt) := by
  obtain ⟨l, happ, _, hsorted, _, _⟩ :=
    my_reservations_own_newest_first sampleEnv sampleStore annSession (fun _ => none)
      (fun _ => none) rfl
  refine ⟨l, happ, ?_, hsorted⟩
  have heval : (app sampleEnv sampleStore (some annSession) (bare .getMyReservations)).outcome =
      .responded (.render "my_reservations" (.reservations
        [⟨⟨"b3", "u2", "r3", some "2025-03-05", some "2025-03-06", some 2, 30⟩, none,
            some ⟨"r3", "Chambre 201", "double", 90, 2, none, ["TV"], none, true⟩⟩,
         ⟨⟨"b1", "u2", "r1", some "2025-01-10", some "2025-01-12", some 2, 10⟩, none,
            some ⟨"r1", "Chambre 101", "double", 120, 2, none, ["WiFi"], none, true⟩⟩])) := by
    decide
  have happ' := (congrArg Result.outcome happ).symm.trans heval
  simp at happ'
  rw [happ']
  rfl

end ReservationTheorems

/-! ## Lemmas on `split` and `trim` -/

section StringLemmas

theorem splitAux_ne_nil (sep : Char) (cs cur : List Char) : splitAux sep cs cur ≠ [] := by
  induction cs generalizing cur with
  | nil => simp [splitAux]
  | cons c cs ih =>
    simp only [splitAux]
    split
    · simp
    · exact ih _

theorem intercalate_cons_of_ne_nil {α : Type} (s a : List α) (l : List (List α)) (h : l ≠ []) :
    s.intercalate (a :: l) = a ++ s ++ s.intercalate l := by
  cases l with
  | nil => exact absurd rfl h
  | cons b l => simp [List.intercalate, List.intersperse]

theorem splitAux_intercalate (sep : Char) (cs cur : List Char) :
    [sep].intercalate (splitAux sep cs cur) = cur.reverse ++ cs := by
  induction cs generalizing cur with
  | nil => simp [splitAux, List.intercalate]
  | cons c cs ih =>
    simp only [splitAux]
    split
    · next h =>
      rw [intercalate_cons_of_ne_nil _ _ _ (splitAux_ne_nil sep cs []), ih]
      simp [h]
    · rw [ih]
      simp

theorem splitAux_no_sep (sep : Char) (cs cur : List Char) (hcur : sep ∉ cur) :
    ∀ p ∈ splitAux sep cs cur, sep ∉ p := by
  induction cs generalizing cur with
  | nil =>
    intro p hp
    simp [splitAux] at hp
    subst hp
    simpa using hcur
  | cons c cs ih =>
    intro p hp
    simp only [splitAux] at hp
    split at hp
    · rcases List.mem_cons.1 hp with rfl | hp
      · simpa using hcur
      · exact ih [] (by simp) p hp
    · next h =>
      refine ih (c :: cur) ?_ p hp
      intro hmem
      rcases List.mem_cons.1 hmem with h1 | h1
      · exact h h1.symm
      · exact hcur h1

theorem trimChars_eq (cs : List Char) :
    trimChars cs = (cs.dropWhile isWhiteSpace).rdropWhile isWhiteSpace := rfl

theorem trimChars_getLast? (cs : List Char) (c : Char) (h : (trimChars cs).getLast? = some c) :
    isWhiteSpace c = false := by
  rw [trimChars_eq] at h
  have hne : (cs.dropWhile isWhiteSpace).rdropWhile isWhiteSpace ≠ [] := by
    intro h0
    rw [h0] at h
    simp at h
  have := List.rdropWhile_last_not (p := isWhiteSpace) (l := cs.dropWhile isWhiteSpace) hne
  rw [List.getLast?_eq_getLast _ hne] at h
  cases h
  simpa using this

theorem trimChars_head? (cs : List Char) (c : Char) (h : (trimChars cs).head? = some c) :
    isWhiteSpace c = false := by
  rw [trimChars_eq] at h
  obtain ⟨t, ht⟩ := List.rdropWhile_prefix (p := isWhiteSpace) (l := cs.dropWhile isWhiteSpace)
  have h1 := List.head?_dropWhile_not isWhiteSpace cs
  rw [← ht] at h1
  cases hr : List.rdropWhile isWhiteSpace (cs.dropWhile isWhiteSpace) with
  | nil => rw [hr] at h; simp at h
  | cons x xs =>
    rw [hr] at h h1
    simp at h h1
    subst h
    exact h1

theorem trimChars_decompose (cs : List Char) :
    ∃ pre post, cs = pre ++ trimChars cs ++ post ∧ (∀ c ∈ pre, isWhiteSpace c = true) ∧
      (∀ c ∈ post, isWhiteSpace c = true) := by
  refine ⟨cs.takeWhile isWhiteSpace, ((cs.dropWhile isWhiteSpace).reverse.takeWhile isWhiteSpace).reverse, ?_, ?_, ?_⟩
  · have h1 := List.takeWhile_append_dropWhile isWhiteSpace cs
    have h2 := List.takeWhile_append_dropWhile isWhiteSpace (cs.dropWhile isWhiteSpace).reverse
    have h3 := congrArg List.reverse h2
    simp only [List.reverse_append, List.reverse_reverse] at h3
    rw [List.append_assoc, trimChars, h3, h1]
  · intro c hc
    exact (List.mem_takeWhile_imp hc)
  · intro c hc
    exact (List.mem_takeWhile_imp (List.mem_reverse.1 hc))
end StringLemmas

/-! ## Administration of rooms -/

section ListLemmas

variable {α : Type}

theorem replaceFirst_append (p : α → Bool) (b a : α) (pre post : List α)
    (hpre : ∀ x ∈ pre, p x = false) (ha : p a = true) :
    replaceFirst p b (pre ++ a :: post) = pre ++ b :: post := by
  induction pre with
  | nil => simp [replaceFirst, ha]
  | cons x pre ih =>
    have hx := hpre x (List.mem_cons_self _ _)
    simp [replaceFirst, hx, ih (fun y hy => hpre y (List.mem_cons_of_mem _ hy))]

theorem find?_append_first (p : α → Bool) (a : α) (pre post : List α)
    (hpre : ∀ x ∈ pre, p x = false) (ha : p a = true) :
    (pre ++ a :: post).find? p = some a := by
  induction pre with
  | nil => simp [ha]
  | cons x pre ih =>
    have hx := hpre x (List.mem_cons_self _ _)
    simp [hx, ih (fun y hy => hpre y (List.mem_cons_of_mem _ hy))]

end ListLemmas

section AdminTheorems

variable {N : Type} [LinearOrder N]

theorem toggle_step (env : Env N) (store : Store N) (admin : SessionUser) (id : String)
    (body query : String → Option String) (room : Room N) (pre post : List (Room N))
    (hadmin : admin.isAdmin = true)
    (hrooms : store.rooms = pre ++ room :: post)
    (hpre : ∀ r ∈ pre, (r._id == id) = false)
    (hid : (room._id == id) = true)
    (hfind : env.fails .roomFindById = false)
    (hsave : env.fails .roomSave = false) :
    app env store (some admin) ⟨.postAdminToggle id, body, query⟩ =
      ⟨.responded (.redirect "/admin/rooms"),
        { users := store.users
          rooms := pre ++ { room with isActive := !room.isActive } :: post
          reservations := store.reservations },
        some admin⟩ := by
  have hfound : store.rooms.find? (fun r => r._id == id) = some room := by
    rw [hrooms]
    exact find?_append_first _ room pre post hpre hid
  have hid' : room._id = id := by simpa using hid
  subst hid'
  have hrep : replaceFirst (fun r : Room N => r._id == room._id)
      { room with isActive := !room.isActive } (pre ++ room :: post) =
      pre ++ { room with isActive := !room.isActive } :: post :=
    replaceFirst_append _ _ room pre post hpre hid
  show guarded requireAdmin (postAdminToggle room._id) env store (some admin)
    ⟨.postAdminToggle room._id, body, query⟩ = _
  simp [guarded, requireAdmin, hadmin, postAdminToggle, Room.findById, hfind, hfound,
    Room.save, hsave]
  rw [hrooms, hrep]

/-- C8: for an administrator and an id that resolves to a Room (no store call rejecting), one
`POST /admin/rooms/:id/toggle` replaces that room by the same room with `isActive` negated,
every other field and every other room, user and reservation being as before, and a second
one gives back the original store, so `isActive` has its original value. -/
theorem toggle_flips_and_twice_restores (env₁ env₂ : Env N) (store : Store N)
    (admin : SessionUser) (id : String) (body₁ body₂ query₁ query₂ : String → Option String)
    (room : Room N)
    (hadmin : admin.isAdmin = true)
    (hroom : store.rooms.find? (fun r => r._id == id) = some room)
    (hfind₁ : env₁.fails .roomFindById = false) (hsave₁ : env₁.fails .roomSave = false)
    (hfind₂ : env₂.fails .roomFindById = false) (hsave₂ : env₂.fails .roomSave = false) :
    ∃ pre post : List (Room N),
      store.rooms = pre ++ room :: post ∧ (∀ r ∈ pre, r._id ≠ id) ∧ room._id = id ∧
      app env₁ store (some admin) ⟨.postAdminToggle id, body₁, query₁⟩ =
        ⟨.responded (.redirect "/admin/rooms"),
          { users := store.users
            rooms := pre ++ { room with isActive := !room.isActive } :: post
            reservations := store.reservations },
          some admin⟩ ∧
      app env₂ (app env₁ store (some admin) ⟨.postAdminToggle id, body₁, query₁⟩).store
          (some admin) ⟨.postAdminToggle id, body₂, query₂⟩ =
        ⟨.responded (.redirect "/admin/rooms"), store, some admin⟩ := by
  obtain ⟨hid, pre, post, hrooms, hpre⟩ := List.find?_eq_some.1 hroom
  have hpre' : ∀ r ∈ pre, (r._id == id) = false := by
    intro r hr
    simpa using hpre r hr
  have h1 := toggle_step env₁ store admin id body₁ query₁ room pre post hadmin hrooms hpre' hid
    hfind₁ hsave₁
  refine ⟨pre, post, hrooms, ?_, by simpa using hid, h1, ?_⟩
  · intro r hr
    simpa using hpre' r hr
  · rw [h1]
    have h2 := toggle_step env₂
      { users := store.users
        rooms := pre ++ { room with isActive := !room.isActive } :: post
        reservations := store.reservations }
      admin id body₂ query₂ { room with isActive := !room.isActive } pre post hadmin rfl hpre'
      hid hfind₂ hsave₂
    rw [h2]
    cases store
    simp at hrooms
    simp [hrooms]

/-- Witness for C8: the administrator toggles room `r1` of the sample store twice. -/
theorem toggle_flips_and_twice_restores_witness :
    ∃ pre post : List (Room Nat),
      sampleStore.rooms = pre ++ ⟨"r1", "Chambre 101", "double", 120, 2, none, ["WiFi"], none,
        true⟩ :: post ∧
      (app sampleEnv sampleStore (some adminSession) (bare (.postAdminToggle "r1"))).store.rooms =
        pre ++ ⟨"r1", "Chambre 101", "double", 120, 2, none, ["WiFi"], none, false⟩ :: post ∧
      (app sampleEnv
        (app sampleEnv sampleStore (some adminSession) (bare (.postAdminToggle "r1"))).store
        (some adminSession) (bare (.postAdminToggle "r1"))).store = sampleStore := by
  obtain ⟨pre, post, hrooms, _, _, h1, h2⟩ :=
    toggle_flips_and_twice_restores sampleEnv sampleEnv sampleStore adminSession "r1"
      (fun _ => none) (fun _ => none) (fun _ => none) (fun _ => none)
      ⟨"r1", "Chambre 101", "double", 120, 2, none, ["WiFi"], none, true⟩ rfl (by decide)
      rfl rfl rfl rfl
  exact ⟨pre, post, hrooms, congrArg (fun r => r.store.rooms) h1, congrArg Result.store h2⟩

/-- C9: when an administrator's `POST /admin/rooms` is accepted by the store (name present,
type in the enum, numeric price and capacity, no rejection), exactly one Room is added, with
`isActive` true, and its amenities are the submitted string split on ',' (the pieces joined
by ',' give the string back and hold no ','), each piece trimmed, the empty ones removed, in
the original order: no stored tag is empty or starts or ends with white space, and an absent
or empty field stores the empty list. -/
theorem admin_room_amenities (env : Env N) (store : Store N) (admin : SessionUser)
    (body query : String → Option String) (name type : String) (price capacity : N)
    (hadmin : admin.isAdmin = true)
    (hname : body "name" = some name) (hname' : name ≠ "")
    (htype : body "type" = some type)
    (htype' : type = "single" ∨ type = "double" ∨ type = "suite")
    (hprice : env.toNumber (body "pricePerNight") = some price)
    (hcapacity : env.toNumber (body "capacity") = some capacity)
    (hcreate : env.fails .roomCreate = false) :
    ∃ amenities : List String,
      app env store (some admin) ⟨.postAdminRooms, body, query⟩ =
        ⟨.responded (.redirect "/admin/rooms"),
          { users := store.users
            rooms := store.rooms ++
              [⟨env.freshId, name, type, price, capacity, body "description", amenities,
                body "imageUrl", true⟩]
            reservations := store.reservations },
          some admin⟩ ∧
      (∀ s, body "amenities" = some s →
        amenities = (((split s ',').map trim).filter fun t => t != "") ∧
        [','].intercalate ((split s ',').map String.data) = s.data ∧
        ∀ piece ∈ split s ',', ',' ∉ piece.data) ∧
      (body "amenities" = none ∨ body "amenities" = some "" → amenities = []) ∧
      (∀ t ∈ amenities, t ≠ "" ∧ (∀ c, t.data.head? = some c → isWhiteSpace c = false) ∧
        ∀ c, t.data.getLast? = some c → isWhiteSpace c = false) := by
  refine ⟨parseAmenities (body "amenities"), ?_, ?_, ?_, ?_⟩
  · show guarded requireAdmin postAdminRooms env store (some admin)
      ⟨.postAdminRooms, body, query⟩ = _
    have henum : (type == "single" || type == "double" || type == "suite") = true := by
      rcases htype' with rfl | rfl | rfl <;> decide
    simp [guarded, requireAdmin, hadmin, postAdminRooms, Room.create, hcreate, hname, htype,
      hprice, hcapacity, hname', henum]
  · intro s hs
    refine ⟨?_, ?_, ?_⟩
    · rw [hs]
      by_cases h0 : s = ""
      · subst h0
        decide
      · simp [parseAmenities, h0]
        rfl
    · simp only [split, List.map_map]
      have hmap : (String.data ∘ String.mk) = (id : List Char → List Char) := rfl
      rw [hmap, List.map_id, splitAux_intercalate]
      rfl
    · intro piece hp
      simp only [split, List.mem_map] at hp
      obtain ⟨cs, hcs, rfl⟩ := hp
      exact splitAux_no_sep ',' s.data [] (by simp) cs hcs
  · rintro (h | h) <;> rw [h] <;> rfl
  · intro t ht
    have hmem : t ∈ parseAmenities (body "amenities") := ht
    rcases hb : body "amenities" with _ | s
    · rw [hb] at hmem
      simp [parseAmenities] at hmem
    · rw [hb] at hmem
      simp only [parseAmenities] at hmem
      split at hmem
      · obtain ⟨hin, hne⟩ := List.mem_filter.1 hmem
        obtain ⟨piece, _, rfl⟩ := List.mem_map.1 hin
        refine ⟨by simpa [Boolean] using hne, ?_, ?_⟩
        · intro c hc
          exact trimChars_head? piece.data c hc
        · intro c hc
          exact trimChars_getLast? piece.data c hc
      · simp at hmem

/-- Witness for C9: a suite created with the amenities ' WiFi , TV,, Petit-déjeuner ,'. -/
theorem admin_room_amenities_witness :
    app sampleEnv sampleStore (some adminSession) createSuite =
      ⟨.responded (.redirect "/admin/rooms"),
        { users := sampleUsers
          rooms := sampleRooms ++
            [⟨"id-new", "Chambre 301", "suite", 200, 4, none, ["WiFi", "TV", "Petit-déjeuner"],
              none, true⟩]
          reservations := sampleReservations },
        some adminSession⟩ := by
  obtain ⟨amenities, happ, hsplit, _, _⟩ :=
    admin_room_amenities sampleEnv sampleStore adminSession createSuite.body createSuite.query
      "Chambre 301" "suite" 200 4 rfl (by decide) (by decide) (by decide) (by decide)
      (by decide) (by decide) rfl
  have hs := (hsplit " WiFi , TV,, Petit-déjeuner ," (by decide)).1
  have hval : (((split " WiFi , TV,, Petit-déjeuner ," ',').map trim).filter fun t => t != "") =
      ["WiFi", "TV", "Petit-déjeuner"] := by decide
  rw [hval] at hs
  rw [hs] at happ
  exact happ

end AdminTheorems

end HotelLouvain
